import Mathlib

/-!
Shallow embedding of `src/vulkano/src/command_buffer/state_cacher.rs`:
the redundant-state elimination cache (`StateCacher`) and its two-phase
descriptor-set comparison helper (`StateCacherDescriptorSets`).

Opaque Vulkan handles (`vk::Pipeline`, `vk::DescriptorSet`, `vk::Buffer`)
are only ever compared for equality by the source, so they are modelled as
`Nat`, with `0` the "nothing bound" sentinel for pipelines.  `SmallVec`
becomes `List Nat`.  The `usize`-to-`u32` cast on `found_diff` is kept
explicit as `% 2 ^ 32`.
-/

/-- Modelled from the spec: the index element type, "a small closed
enumeration (e.g., 16-bit vs 32-bit indices)" compared only by equality.
The Rust enum `pipeline::input_assembly::IndexType` is outside the provided
source file. -/
inductive IndexType where
  | u16 : IndexType
  | u32 : IndexType
deriving DecidableEq

/-- Modelled from the spec: the dynamic rasterization snapshot, "a record of
independently-optional fields (e.g. line width, viewport list, scissor-rect
list)"; per-field values are compared only for equality ("numeric, or an
ordered list of numeric rectangles"), so a line width is modelled as a `Nat`
and a viewport/scissor list as a list of numeric rectangles.  The Rust struct
`command_buffer::DynamicState` is outside the provided source file. -/
structure DynamicState where
  line_width : Option Nat
  viewports : Option (List (Nat × Nat × Nat × Nat))
  scissors : Option (List (Nat × Nat × Nat × Nat))
deriving DecidableEq

/-- Embeds `DynamicState::none()`: every field unset. -/
def DynamicState.none : DynamicState :=
  { line_width := Option.none, viewports := Option.none, scissors := Option.none }

/-- Embeds the `StateCacher` struct. -/
structure StateCacher where
  dynamic_state : DynamicState
  compute_pipeline : Nat
  graphics_pipeline : Nat
  compute_descriptor_sets : List Nat
  graphics_descriptor_sets : List Nat
  poisonned_descriptor_sets : Bool
  index_buffer : Option (Nat × Nat × IndexType)
deriving DecidableEq

/-- Embeds the `StateCacherOutcome` enum. -/
inductive StateCacherOutcome where
  | NeedChange : StateCacherOutcome
  | AlreadyOk : StateCacherOutcome
deriving DecidableEq

/-- Embeds `StateCacher::new`. -/
def StateCacher.new : StateCacher :=
  { dynamic_state := DynamicState.none
    compute_pipeline := 0
    graphics_pipeline := 0
    compute_descriptor_sets := []
    graphics_descriptor_sets := []
    poisonned_descriptor_sets := false
    index_buffer := Option.none }

/-- Embeds `StateCacher::invalidate`: resets every cached binding to its
empty value but does not touch `poisonned_descriptor_sets`. -/
def StateCacher.invalidate (s : StateCacher) : StateCacher :=
  { s with
    dynamic_state := DynamicState.none
    compute_pipeline := 0
    graphics_pipeline := 0
    compute_descriptor_sets := []
    graphics_descriptor_sets := []
    index_buffer := Option.none }

/-- Embeds one expansion of the `cmp!` macro inside `StateCacher::dynamic_state`:
given the cached field and the incoming field, returns the updated cached
field and the updated incoming field.  If the two are equal the incoming one
is cleared; otherwise, if the incoming one is present, it is committed into
the cache and stays in the output. -/
def cmp_field {α : Type} [DecidableEq α] (cached incoming : Option α) :
    Option α × Option α :=
  if cached = incoming then (cached, Option.none)
  else if incoming.isSome then (incoming, incoming)
  else (cached, incoming)

/-- Embeds `StateCacher::dynamic_state` (named `dynamic_state_op` because the
record field already carries the source name): applies `cmp_field` to the
three fields `line_width`, `viewports`, `scissors`, committing differing
supplied values into the cache and returning the filtered delta. -/
def StateCacher.dynamic_state_op (s : StateCacher) (incoming : DynamicState) :
    StateCacher × DynamicState :=
  let lw := cmp_field s.dynamic_state.line_width incoming.line_width
  let vp := cmp_field s.dynamic_state.viewports incoming.viewports
  let sc := cmp_field s.dynamic_state.scissors incoming.scissors
  ({ s with dynamic_state := { line_width := lw.1, viewports := vp.1, scissors := sc.1 } },
   { line_width := lw.2, viewports := vp.2, scissors := sc.2 })

/-- Embeds `StateCacher::bind_graphics_pipeline`, taking the raw handle that
the source extracts via `internal_object()`. -/
def StateCacher.bind_graphics_pipeline (s : StateCacher) (inner : Nat) :
    StateCacherOutcome × StateCacher :=
  if inner = s.graphics_pipeline then (StateCacherOutcome.AlreadyOk, s)
  else (StateCacherOutcome.NeedChange, { s with graphics_pipeline := inner })

/-- Embeds `StateCacher::bind_compute_pipeline`, taking the raw handle that
the source extracts via `internal_object()`. -/
def StateCacher.bind_compute_pipeline (s : StateCacher) (inner : Nat) :
    StateCacherOutcome × StateCacher :=
  if inner = s.compute_pipeline then (StateCacherOutcome.AlreadyOk, s)
  else (StateCacherOutcome.NeedChange, { s with compute_pipeline := inner })

/-- Embeds `StateCacher::bind_index_buffer`, taking the raw buffer handle and
byte offset that the source extracts from `index_buffer.inner()`. -/
def StateCacher.bind_index_buffer (s : StateCacher) (buffer offset : Nat)
    (ty : IndexType) : StateCacherOutcome × StateCacher :=
  let value := (buffer, offset, ty)
  if s.index_buffer = some value then (StateCacherOutcome.AlreadyOk, s)
  else (StateCacherOutcome.NeedChange, { s with index_buffer := some value })

/-- Embeds the `StateCacherDescriptorSets` helper.  The Rust helper
exclusively borrows the parent's chosen sequence and poison flag; here the
comparator owns the list and `StateCacher.finish_descriptor_sets` writes the
results of `compare` back, which is observationally equivalent because the
borrow is exclusive for the comparator's whole lifetime. -/
structure StateCacherDescriptorSets where
  state : List Nat
  offset : Nat
  found_diff : Option Nat
deriving DecidableEq

/-- Embeds `StateCacher::bind_descriptor_sets`: wipes both sequences when the
poison flag is set, raises the flag, and hands out a comparator over the
requested (possibly wiped) sequence with cursor `0` and no difference
recorded. -/
def StateCacher.bind_descriptor_sets (s : StateCacher) (graphics : Bool) :
    StateCacher × StateCacherDescriptorSets :=
  let s1 :=
    if s.poisonned_descriptor_sets then
      { s with compute_descriptor_sets := [], graphics_descriptor_sets := [] }
    else s
  let s2 := { s1 with poisonned_descriptor_sets := true }
  (s2,
   { state := if graphics then s2.graphics_descriptor_sets else s2.compute_descriptor_sets
     offset := 0
     found_diff := Option.none })

/-- Embeds the trailing `found_diff` update of `StateCacherDescriptorSets::add`:
records `offset` (cast from `usize` to `u32`) as the first differing index if
none has been recorded yet. -/
def StateCacherDescriptorSets.record_diff (c : StateCacherDescriptorSets) :
    StateCacherDescriptorSets :=
  if c.found_diff = Option.none then { c with found_diff := some (c.offset % 2 ^ 32) }
  else c

/-- Embeds `StateCacherDescriptorSets::add`: within bounds, an equal handle
returns early, a differing one overwrites the slot at `offset`; out of
bounds the handle is appended; a non-early-returning path records the first
difference.  The source contains no increment of `offset`, and neither does
this embedding. -/
def StateCacherDescriptorSets.add (c : StateCacherDescriptorSets) (raw : Nat) :
    StateCacherDescriptorSets :=
  if h : c.offset < c.state.length then
    if c.state.get ⟨c.offset, h⟩ = raw then c
    else StateCacherDescriptorSets.record_diff { c with state := c.state.set c.offset raw }
  else StateCacherDescriptorSets.record_diff { c with state := c.state ++ [raw] }

/-- Embeds `StateCacherDescriptorSets::compare` minus the borrow write-back:
the removal loop deletes the element at position `offset` once for every
index in `offset .. len`, leaving exactly the first `offset` elements; the
result pairs the recorded first difference with the truncated list. -/
def StateCacherDescriptorSets.compare (c : StateCacherDescriptorSets) :
    Option Nat × List Nat :=
  let st := if c.offset < c.state.length then c.state.take c.offset else c.state
  (c.found_diff, st)

/-- Writes a finished comparator back into the cacher, mirroring what
`StateCacherDescriptorSets::compare` does through its exclusive borrows:
the poison flag is cleared and the borrowed sequence is replaced by the
truncated list; the returned value is the recorded first difference. -/
def StateCacher.finish_descriptor_sets (s : StateCacher) (graphics : Bool)
    (c : StateCacherDescriptorSets) : StateCacher × Option Nat :=
  let r := c.compare
  ({ s with
     poisonned_descriptor_sets := false
     graphics_descriptor_sets := if graphics then r.2 else s.graphics_descriptor_sets
     compute_descriptor_sets := if graphics then s.compute_descriptor_sets else r.2 },
   r.1)

/-- Runs `add` over a whole list of handles, front to back. -/
def StateCacherDescriptorSets.add_all (c : StateCacherDescriptorSets)
    (sets : List Nat) : StateCacherDescriptorSets :=
  sets.foldl StateCacherDescriptorSets.add c

/-- C1: evaluation of the code at a failing input.  With cached graphics
sequence `[5, 7]`, the call sequence begin, add 5, add 7 should (per the
claim) compare the second add against slot 1, find it equal, and record no
difference, leaving `[5, 7]`.  The code instead never advances the cursor:
the second add is compared against slot 0 again, overwrites it with `7`, and
records first difference `0`, leaving `[7, 7]` with the cursor still `0`. -/
theorem C1_cursor_never_advances_eval :
    (((StateCacher.bind_descriptor_sets
        { StateCacher.new with graphics_descriptor_sets := [5, 7] } true).2.add 5).add 7)
      = { state := [7, 7], offset := 0, found_diff := some 0 } := by
  decide

/-- C2: evaluation of the code at a failing input.  Starting from an empty
graphics cache, the round begin, add 1, add 2, finalize reports first
difference `0`, but repeating the identical round does not report "no
difference": it reports `some 0` again, and the cached graphics sequence
after each round is `[]` rather than `[1, 2]`, because the cursor never
advances and finalize truncates at cursor position `0`. -/
theorem C2_repeat_not_no_difference_eval :
    (let p1 := StateCacher.new.bind_descriptor_sets true
     let q1 := p1.1.finish_descriptor_sets true ((p1.2.add 1).add 2)
     let p2 := q1.1.bind_descriptor_sets true
     let q2 := p2.1.finish_descriptor_sets true ((p2.2.add 1).add 2)
     q1.2 = some 0 ∧ q2.2 = some 0 ∧ q1.1.graphics_descriptor_sets = []
       ∧ q2.1.graphics_descriptor_sets = []) := by
  decide

/-- C3: evaluation of the code at a failing input.  With cached graphics
sequence `[1, 2]`, the round begin, add 1, add 3, finalize should (per the
claim) report first difference `1` and leave the cache at `[1, 3]`.  The
code reports `some 0` and leaves the cache at `[]`: the equal first add does
not advance the cursor, so the second add overwrites slot 0 and finalize
truncates everything from cursor position `0`. -/
theorem C3_later_slot_eval :
    (let p := (StateCacher.bind_descriptor_sets
        { StateCacher.new with graphics_descriptor_sets := [1, 2] } true)
     let q := p.1.finish_descriptor_sets true ((p.2.add 1).add 3)
     q.2 = some 0 ∧ q.1.graphics_descriptor_sets = []) := by
  decide

/-- C4: evaluation of the code at a failing input.  With cached compute
sequence `[1, 2, 3]`, the round begin, add 1, finalize reports "no
difference" as the claim states, but truncates the cache to `[]` rather
than `[1]`: the equal add does not advance the cursor, so finalize removes
every entry from cursor position `0`, not just the stale trailing ones. -/
theorem C4_truncation_eval :
    (let p := (StateCacher.bind_descriptor_sets
        { StateCacher.new with compute_descriptor_sets := [1, 2, 3] } false)
     let q := p.1.finish_descriptor_sets false (p.2.add 1)
     q.2 = Option.none ∧ q.1.compute_descriptor_sets = []) := by
  decide

/-- C5: begin-descriptor-set-comparison wipes both sequences exactly when the
poison flag is set, then raises the flag and returns a comparator over the
requested (possibly wiped) sequence with cursor `0` and no difference
recorded; finalize clears the flag; and because an abandoned comparator
leaves the flag raised, a begin following an unfinalized begin wipes both
sequences for either pipeline type. -/
theorem C5_poisoning_protocol (s : StateCacher) (g : Bool) :
    ((s.bind_descriptor_sets g).1.poisonned_descriptor_sets = true)
    ∧ (s.poisonned_descriptor_sets = true →
        (s.bind_descriptor_sets g).1.compute_descriptor_sets = []
        ∧ (s.bind_descriptor_sets g).1.graphics_descriptor_sets = [])
    ∧ (s.poisonned_descriptor_sets = false →
        (s.bind_descriptor_sets g).1.compute_descriptor_sets = s.compute_descriptor_sets
        ∧ (s.bind_descriptor_sets g).1.graphics_descriptor_sets = s.graphics_descriptor_sets)
    ∧ (s.bind_descriptor_sets g).2.offset = 0
    ∧ (s.bind_descriptor_sets g).2.found_diff = Option.none
    ∧ ((s.bind_descriptor_sets g).2.state =
        if g then (s.bind_descriptor_sets g).1.graphics_descriptor_sets
        else (s.bind_descriptor_sets g).1.compute_descriptor_sets)
    ∧ (∀ c : StateCacherDescriptorSets,
        (s.finish_descriptor_sets g c).1.poisonned_descriptor_sets = false)
    ∧ (∀ g2 : Bool,
        ((s.bind_descriptor_sets g).1.bind_descriptor_sets g2).1.compute_descriptor_sets = []
        ∧ ((s.bind_descriptor_sets g).1.bind_descriptor_sets g2).1.graphics_descriptor_sets = []
        ∧ ((s.bind_descriptor_sets g).1.bind_descriptor_sets g2).2.state = []) := by
  cases hp : s.poisonned_descriptor_sets <;>
    simp [StateCacher.bind_descriptor_sets, StateCacher.finish_descriptor_sets, hp]

/-- Witness for C5 at a concrete poisoned cache: the begin call wipes both
sequences. -/
theorem C5_poisoning_protocol_witness :
    (({ StateCacher.new with
        poisonned_descriptor_sets := true,
        graphics_descriptor_sets := [3],
        compute_descriptor_sets := [4] } : StateCacher).bind_descriptor_sets
          true).1.compute_descriptor_sets = []
    ∧ (({ StateCacher.new with
        poisonned_descriptor_sets := true,
        graphics_descriptor_sets := [3],
        compute_descriptor_sets := [4] } : StateCacher).bind_descriptor_sets
          true).1.graphics_descriptor_sets = [] :=
  (C5_poisoning_protocol
    { StateCacher.new with
      poisonned_descriptor_sets := true,
      graphics_descriptor_sets := [3],
      compute_descriptor_sets := [4] } true).2.1 rfl

/-- C6: for every state and handle, a pipeline bind query (graphics or
compute) reports AlreadyOk and leaves the cache unchanged when the handle
equals the cached one, and otherwise stores the handle and reports
NeedChange; consequently, on a fresh cache a non-sentinel handle reports
NeedChange then AlreadyOk when queried twice, and querying any handle then a
different handle reports NeedChange the second time. -/
theorem C6_pipeline_bind (s : StateCacher) (h : Nat) :
    (h = s.graphics_pipeline →
        s.bind_graphics_pipeline h = (StateCacherOutcome.AlreadyOk, s))
    ∧ (h ≠ s.graphics_pipeline →
        s.bind_graphics_pipeline h =
          (StateCacherOutcome.NeedChange, { s with graphics_pipeline := h }))
    ∧ (h = s.compute_pipeline →
        s.bind_compute_pipeline h = (StateCacherOutcome.AlreadyOk, s))
    ∧ (h ≠ s.compute_pipeline →
        s.bind_compute_pipeline h =
          (StateCacherOutcome.NeedChange, { s with compute_pipeline := h }))
    ∧ (h ≠ 0 →
        (StateCacher.new.bind_graphics_pipeline h).1 = StateCacherOutcome.NeedChange
        ∧ ((StateCacher.new.bind_graphics_pipeline h).2.bind_graphics_pipeline h).1
            = StateCacherOutcome.AlreadyOk
        ∧ (StateCacher.new.bind_compute_pipeline h).1 = StateCacherOutcome.NeedChange
        ∧ ((StateCacher.new.bind_compute_pipeline h).2.bind_compute_pipeline h).1
            = StateCacherOutcome.AlreadyOk)
    ∧ (∀ h2 : Nat, h2 ≠ h →
        ((s.bind_graphics_pipeline h).2.bind_graphics_pipeline h2).1
            = StateCacherOutcome.NeedChange
        ∧ ((s.bind_compute_pipeline h).2.bind_compute_pipeline h2).1
            = StateCacherOutcome.NeedChange) := by
  refine ⟨?_, ?_, ?_, ?_, ?_, ?_⟩
  · intro he; simp [StateCacher.bind_graphics_pipeline, he]
  · intro he; simp [StateCacher.bind_graphics_pipeline, he]
  · intro he; simp [StateCacher.bind_compute_pipeline, he]
  · intro he; simp [StateCacher.bind_compute_pipeline, he]
  · intro hne
    refine ⟨?_, ?_, ?_, ?_⟩ <;>
      simp [StateCacher.bind_graphics_pipeline, StateCacher.bind_compute_pipeline,
        StateCacher.new, hne]
  · intro h2 h2ne
    refine ⟨?_, ?_⟩
    · by_cases he : h = s.graphics_pipeline
      · have hne2 : h2 ≠ s.graphics_pipeline := fun hh => h2ne (hh.trans he.symm)
        simp [StateCacher.bind_graphics_pipeline, he, hne2]
      · simp [StateCacher.bind_graphics_pipeline, he, h2ne]
    · by_cases he : h = s.compute_pipeline
      · have hne2 : h2 ≠ s.compute_pipeline := fun hh => h2ne (hh.trans he.symm)
        simp [StateCacher.bind_compute_pipeline, he, hne2]
      · simp [StateCacher.bind_compute_pipeline, he, h2ne]

/-- Witness for C6 at concrete inputs: on a fresh cache, handle 1 reports
NeedChange then AlreadyOk, and handle 2 after handle 1 reports NeedChange. -/
theorem C6_pipeline_bind_witness :
    ((StateCacher.new.bind_graphics_pipeline 1).1 = StateCacherOutcome.NeedChange
      ∧ ((StateCacher.new.bind_graphics_pipeline 1).2.bind_graphics_pipeline 1).1
          = StateCacherOutcome.AlreadyOk
      ∧ (StateCacher.new.bind_compute_pipeline 1).1 = StateCacherOutcome.NeedChange
      ∧ ((StateCacher.new.bind_compute_pipeline 1).2.bind_compute_pipeline 1).1
          = StateCacherOutcome.AlreadyOk)
    ∧ (((StateCacher.new.bind_graphics_pipeline 1).2.bind_graphics_pipeline 2).1
          = StateCacherOutcome.NeedChange
        ∧ ((StateCacher.new.bind_compute_pipeline 1).2.bind_compute_pipeline 2).1
          = StateCacherOutcome.NeedChange) :=
  ⟨(C6_pipeline_bind StateCacher.new 1).2.2.2.2.1 (by decide),
   (C6_pipeline_bind StateCacher.new 1).2.2.2.2.2 2 (by decide)⟩

/-- C7: the index-buffer query reports AlreadyOk exactly when the cached
optional tuple equals `some` of the input triple; otherwise (any differing
field, or an empty cache) it stores the triple and reports NeedChange.
After binding `(b, 0, u16)`, re-querying `(b, 0, u16)` reports AlreadyOk,
while `(b, 4, u16)` and `(b, 0, u32)` report NeedChange. -/
theorem C7_index_buffer (s : StateCacher) (b off : Nat) (ty : IndexType) :
    (s.index_buffer = some (b, off, ty) →
        s.bind_index_buffer b off ty = (StateCacherOutcome.AlreadyOk, s))
    ∧ (s.index_buffer ≠ some (b, off, ty) →
        s.bind_index_buffer b off ty =
          (StateCacherOutcome.NeedChange, { s with index_buffer := some (b, off, ty) }))
    ∧ ((s.bind_index_buffer b 0 IndexType.u16).2.bind_index_buffer b 0 IndexType.u16).1
        = StateCacherOutcome.AlreadyOk
    ∧ ((s.bind_index_buffer b 0 IndexType.u16).2.bind_index_buffer b 4 IndexType.u16).1
        = StateCacherOutcome.NeedChange
    ∧ ((s.bind_index_buffer b 0 IndexType.u16).2.bind_index_buffer b 0 IndexType.u32).1
        = StateCacherOutcome.NeedChange := by
  refine ⟨?_, ?_, ?_, ?_, ?_⟩ <;>
    by_cases hb : s.index_buffer = some (b, (0 : Nat), IndexType.u16) <;>
      simp [StateCacher.bind_index_buffer, hb]

/-- Witness for C7 at concrete inputs: with nothing cached, binding
`(5, 0, u16)` stores the triple and reports NeedChange. -/
theorem C7_index_buffer_witness :
    StateCacher.new.bind_index_buffer 5 0 IndexType.u16 =
      (StateCacherOutcome.NeedChange,
        { StateCacher.new with index_buffer := some (5, 0, IndexType.u16) }) :=
  (C7_index_buffer StateCacher.new 5 0 IndexType.u16).2.1 (by decide)

/-- Repeating `cmp_field` with the same incoming field always clears the
incoming field the second time: after the first call the cache holds the
incoming value whenever it was present, so the second comparison finds
equality (or an absent incoming field, which is cleared as well). -/
theorem cmp_field_repeat_none {α : Type} [DecidableEq α] (c i : Option α) :
    (cmp_field (cmp_field c i).1 i).2 = Option.none := by
  by_cases h : c = i
  · simp [cmp_field, h]
  · cases i <;> simp [cmp_field, h]

/-- An absent incoming field leaves the cached field untouched and stays
absent in the output. -/
theorem cmp_field_absent {α : Type} [DecidableEq α] (c : Option α) :
    cmp_field c Option.none = (c, Option.none) := by
  by_cases h : c = Option.none <;> simp [cmp_field, h]

/-- C8: repeating a dynamic-state query with the identical candidate makes
the second call return a delta that is empty in every field (in particular
in every field the first call's candidate supplied), and a field the
candidate leaves absent is never modified in the cached snapshot and never
appears in the returned delta, whatever the cache holds for it. -/
theorem C8_dynamic_state_repeat (s : StateCacher) (d : DynamicState) :
    (((s.dynamic_state_op d).1.dynamic_state_op d).2 = DynamicState.none)
    ∧ (d.line_width = Option.none →
        (s.dynamic_state_op d).1.dynamic_state.line_width = s.dynamic_state.line_width
        ∧ (s.dynamic_state_op d).2.line_width = Option.none)
    ∧ (d.viewports = Option.none →
        (s.dynamic_state_op d).1.dynamic_state.viewports = s.dynamic_state.viewports
        ∧ (s.dynamic_state_op d).2.viewports = Option.none)
    ∧ (d.scissors = Option.none →
        (s.dynamic_state_op d).1.dynamic_state.scissors = s.dynamic_state.scissors
        ∧ (s.dynamic_state_op d).2.scissors = Option.none) := by
  refine ⟨?_, ?_, ?_, ?_⟩
  · simp [StateCacher.dynamic_state_op, DynamicState.none, cmp_field_repeat_none]
  · intro ha
    constructor <;> simp [StateCacher.dynamic_state_op, ha, cmp_field_absent]
  · intro ha
    constructor <;> simp [StateCacher.dynamic_state_op, ha, cmp_field_absent]
  · intro ha
    constructor <;> simp [StateCacher.dynamic_state_op, ha, cmp_field_absent]

/-- Witness for C8 at a concrete candidate that supplies a line width and
leaves the viewport list absent. -/
theorem C8_dynamic_state_repeat_witness :
    ((StateCacher.new.dynamic_state_op
        { line_width := some 5, viewports := Option.none,
          scissors := Option.none }).1.dynamic_state_op
        { line_width := some 5, viewports := Option.none,
          scissors := Option.none }).2 = DynamicState.none
    ∧ (StateCacher.new.dynamic_state_op
        { line_width := some 5, viewports := Option.none,
          scissors := Option.none }).1.dynamic_state.viewports
        = StateCacher.new.dynamic_state.viewports :=
  ⟨(C8_dynamic_state_repeat StateCacher.new
      { line_width := some 5, viewports := Option.none, scissors := Option.none }).1,
   ((C8_dynamic_state_repeat StateCacher.new
      { line_width := some 5, viewports := Option.none,
        scissors := Option.none }).2.2.1 rfl).1⟩

/-- With an absent cached field, `cmp_field` returns the incoming field
unchanged as the delta. -/
theorem cmp_field_none_snd {α : Type} [DecidableEq α] (i : Option α) :
    (cmp_field Option.none i).2 = i := by
  cases i <;> simp [cmp_field]

/-- An `add` call never clears a recorded first difference. -/
theorem add_preserves_found_diff (c : StateCacherDescriptorSets) (raw k : Nat)
    (h : c.found_diff = some k) : (c.add raw).found_diff = some k := by
  by_cases hlt : c.offset < c.state.length
  · by_cases heq : c.state[c.offset] = raw
    · simp [StateCacherDescriptorSets.add, hlt, heq, h]
    · simp [StateCacherDescriptorSets.add, StateCacherDescriptorSets.record_diff,
        hlt, heq, h]
  · simp [StateCacherDescriptorSets.add, StateCacherDescriptorSets.record_diff, hlt, h]

/-- A whole sequence of `add` calls never clears a recorded first
difference. -/
theorem add_all_preserves_found_diff (sets : List Nat) :
    ∀ (c : StateCacherDescriptorSets) (k : Nat), c.found_diff = some k →
      (c.add_all sets).found_diff = some k := by
  induction sets with
  | nil => intro c k h; simpa [StateCacherDescriptorSets.add_all] using h
  | cons x rest ih =>
      intro c k h
      simp only [StateCacherDescriptorSets.add_all, List.foldl_cons] at ih ⊢
      exact ih (c.add x) k (add_preserves_found_diff c x k h)

/-- The first `add` on a fresh comparator over an empty sequence appends the
handle and records first difference `0`. -/
theorem add_on_empty_eq (raw : Nat) :
    StateCacherDescriptorSets.add
        { state := [], offset := 0, found_diff := Option.none } raw
      = { state := [raw], offset := 0, found_diff := some 0 } := by
  simp [StateCacherDescriptorSets.add, StateCacherDescriptorSets.record_diff]

/-- Any nonempty sequence of `add` calls on a fresh comparator over an empty
sequence ends with first difference `0` recorded. -/
theorem add_all_on_empty_found_diff (sets : List Nat) (hne : sets ≠ []) :
    (StateCacherDescriptorSets.add_all
        { state := [], offset := 0, found_diff := Option.none } sets).found_diff
      = some 0 := by
  cases sets with
  | nil => exact absurd rfl hne
  | cons x rest =>
      simp only [StateCacherDescriptorSets.add_all, List.foldl_cons]
      exact add_all_preserves_found_diff rest _ 0 (by rw [add_on_empty_eq])

/-- A finalize whose cursor is still `0` returns the recorded difference and
truncates the list to empty. -/
theorem compare_offset_zero (st : List Nat) (fd : Option Nat) :
    StateCacherDescriptorSets.compare { state := st, offset := 0, found_diff := fd }
      = (fd, []) := by
  cases st <;> simp [StateCacherDescriptorSets.compare]

/-- C9: invalidate resets the dynamic-state snapshot, both pipeline handles,
both descriptor-set sequences and the index-buffer binding to the values of
a fresh cache (leaving only the poison flag as it was), and the invalidated
cache is observably identical to a fresh one: every pipeline or index-buffer
query on a non-sentinel input reports NeedChange, a dynamic-state query
returns the full candidate as its delta, every query returns the same
observable as on a fresh cache, and a descriptor-set comparison begun after
invalidate runs over an empty sequence, so any nonempty run of add calls
records first difference `0`. -/
theorem C9_invalidate_fresh (s : StateCacher) :
    (s.invalidate = { StateCacher.new with
        poisonned_descriptor_sets := s.poisonned_descriptor_sets })
    ∧ (∀ h : Nat, h ≠ 0 →
        (s.invalidate.bind_graphics_pipeline h).1 = StateCacherOutcome.NeedChange
        ∧ (s.invalidate.bind_compute_pipeline h).1 = StateCacherOutcome.NeedChange)
    ∧ (∀ b off : Nat, ∀ ty : IndexType,
        (s.invalidate.bind_index_buffer b off ty).1 = StateCacherOutcome.NeedChange)
    ∧ (∀ d : DynamicState, (s.invalidate.dynamic_state_op d).2 = d)
    ∧ (∀ h : Nat,
        (s.invalidate.bind_graphics_pipeline h).1
          = (StateCacher.new.bind_graphics_pipeline h).1
        ∧ (s.invalidate.bind_compute_pipeline h).1
          = (StateCacher.new.bind_compute_pipeline h).1)
    ∧ (∀ b off : Nat, ∀ ty : IndexType,
        (s.invalidate.bind_index_buffer b off ty).1
          = (StateCacher.new.bind_index_buffer b off ty).1)
    ∧ (∀ d : DynamicState,
        (s.invalidate.dynamic_state_op d).2 = (StateCacher.new.dynamic_state_op d).2)
    ∧ (∀ g : Bool,
        (s.invalidate.bind_descriptor_sets g).2
          = (StateCacher.new.bind_descriptor_sets g).2)
    ∧ (∀ g : Bool, ∀ sets : List Nat, sets ≠ [] →
        ((s.invalidate.bind_descriptor_sets g).2.add_all sets).found_diff = some 0) := by
  have hinv : s.invalidate = { StateCacher.new with
      poisonned_descriptor_sets := s.poisonned_descriptor_sets } := rfl
  have hcmp : ∀ g : Bool, (s.invalidate.bind_descriptor_sets g).2
      = { state := [], offset := 0, found_diff := Option.none } := by
    intro g
    rw [hinv]
    cases hp : s.poisonned_descriptor_sets <;>
      cases g <;>
        simp [StateCacher.bind_descriptor_sets, StateCacher.new]
  refine ⟨hinv, ?_, ?_, ?_, ?_, ?_, ?_, ?_, ?_⟩
  · intro h hne
    rw [hinv]
    constructor <;>
      simp [StateCacher.bind_graphics_pipeline, StateCacher.bind_compute_pipeline,
        StateCacher.new, hne]
  · intro b off ty
    rw [hinv]
    simp [StateCacher.bind_index_buffer, StateCacher.new]
  · intro d
    obtain ⟨lw, vp, sc⟩ := d
    rw [hinv]
    simp [StateCacher.dynamic_state_op, StateCacher.new, DynamicState.none,
      cmp_field_none_snd]
  · intro h
    rw [hinv]
    constructor <;>
      · by_cases h0 : h = 0 <;>
          simp [StateCacher.bind_graphics_pipeline, StateCacher.bind_compute_pipeline,
            StateCacher.new, h0]
  · intro b off ty
    rw [hinv]
    simp [StateCacher.bind_index_buffer, StateCacher.new]
  · intro d
    rw [hinv]
    simp [StateCacher.dynamic_state_op, StateCacher.new]
  · intro g
    rw [hcmp g]
    cases g <;> simp [StateCacher.bind_descriptor_sets, StateCacher.new]
  · intro g sets hne
    rw [hcmp g]
    exact add_all_on_empty_found_diff sets hne

/-- Witness for C9 at a concrete populated cache: after invalidate, binding
graphics pipeline 1 reports NeedChange and a comparison that adds sets 4
then 5 records first difference 0. -/
theorem C9_invalidate_fresh_witness :
    ((({ StateCacher.new with
          graphics_pipeline := 9,
          graphics_descriptor_sets := [7] } : StateCacher).invalidate.bind_graphics_pipeline
            1).1 = StateCacherOutcome.NeedChange)
    ∧ (((({ StateCacher.new with
          graphics_pipeline := 9,
          graphics_descriptor_sets := [7] } : StateCacher).invalidate.bind_descriptor_sets
            true).2.add_all [4, 5]).found_diff = some 0) :=
  ⟨((C9_invalidate_fresh
      { StateCacher.new with
        graphics_pipeline := 9,
        graphics_descriptor_sets := [7] }).2.1 1 (by decide)).1,
   (C9_invalidate_fresh
      { StateCacher.new with
        graphics_pipeline := 9,
        graphics_descriptor_sets := [7] }).2.2.2.2.2.2.2.2 true [4, 5] (by decide)⟩

/-- C10: a begin immediately followed by finalize, with zero add calls,
reports no difference for every prior cache state, yet the borrowed sequence
is truncated to empty (whatever it held before), so a "no difference" result
does not imply the cached sequence was left unchanged. -/
theorem C10_zero_add_finalize (s : StateCacher) (g : Bool) :
    (((s.bind_descriptor_sets g).1.finish_descriptor_sets g
        (s.bind_descriptor_sets g).2).2 = Option.none)
    ∧ (((s.bind_descriptor_sets g).1.finish_descriptor_sets g
        (s.bind_descriptor_sets g).2).1.graphics_descriptor_sets
          = if g then []
            else ((s.bind_descriptor_sets g).1.graphics_descriptor_sets))
    ∧ (((s.bind_descriptor_sets g).1.finish_descriptor_sets g
        (s.bind_descriptor_sets g).2).1.compute_descriptor_sets
          = if g then ((s.bind_descriptor_sets g).1.compute_descriptor_sets)
            else []) := by
  have hc : (s.bind_descriptor_sets g).2.compare
      = (Option.none, []) := by
    have : (s.bind_descriptor_sets g).2
        = { state := if g then (s.bind_descriptor_sets g).1.graphics_descriptor_sets
              else (s.bind_descriptor_sets g).1.compute_descriptor_sets,
            offset := 0, found_diff := Option.none } := by
      cases hp : s.poisonned_descriptor_sets <;>
        simp [StateCacher.bind_descriptor_sets, hp]
    rw [this, compare_offset_zero]
  refine ⟨?_, ?_, ?_⟩ <;>
    simp [StateCacher.finish_descriptor_sets, hc]
